import Mathlib

/-!
Shallow embedding of src/graphrest.py (class GraphSession), a Microsoft Graph
OAuth 2.0 Authorization Code Grant session helper. Machine time is modelled as
an exact rational clock value, parsed JSON token bodies as a typed record of
optional fields, the state.json file as an optional persisted session record,
and each token-endpoint POST as consuming a fixed response oracle while
incrementing a POST counter used to observe network activity.
-/

namespace GraphRest

/-- Python truthiness of an optional string: None and the empty string are
falsy, every other string is truthy. -/
def pyTruthy : Option String → Bool
  | none => false
  | some s => if s = "" then false else true

/-- Python int() applied to an exact rational: truncation toward zero. -/
def pyInt (q : ℚ) : ℤ :=
  q.num.tdiv q.den

/-- Parsed JSON body of a token-endpoint response; each field is present or
absent. graphrest.py reads access_token, scope, expires_in and refresh_token;
the error field carries bodies such as an invalid_grant error response. -/
structure TokenBody where
  access_token : Option String := none
  scope : Option String := none
  expires_in : Option ℚ := none
  refresh_token : Option String := none
  error : Option String := none
deriving DecidableEq

/-- Response from the token endpoint: the requests ok flag (status below 400)
and the parsed JSON body. -/
structure HTTPResponse where
  ok : Bool
  body : TokenBody
deriving DecidableEq

/-- The self.config dictionary built in GraphSession.__init__ (lines 47-53). -/
structure Config where
  client_id : String
  client_secret : String
  redirect_uri : String
  scopes : List String
  cache_state : Bool
  resource : String
  api_version : String
  authority_url : String
  auth_endpoint : String
  token_endpoint : String
  refresh_enable : Bool
deriving DecidableEq

/-- Keyword-argument overrides accepted by GraphSession.__init__; a none field
means the keyword was not passed and the default is kept. -/
structure Overrides where
  client_id : Option String := none
  client_secret : Option String := none
  redirect_uri : Option String := none
  scopes : Option (List String) := none
  cache_state : Option Bool := none
  resource : Option String := none
  api_version : Option String := none
  authority_url : Option String := none
  auth_endpoint : Option String := none
  token_endpoint : Option String := none
  refresh_enable : Option Bool := none
deriving DecidableEq

/-- Modelled from the spec: the external config module (resource base URL, API
version, authority URL and endpoint paths) is imported by graphrest.py but is
not part of src/. Concrete strings stand in for its constants; no claim
depends on their values. -/
def config_RESOURCE : String := "https://graph.microsoft.com/"

def config_API_VERSION : String := "v1.0"

def config_AUTHORITY_URL : String := "https://login.microsoftonline.com/common"

def config_AUTH_ENDPOINT : String := "/oauth2/v2.0/authorize"

def config_TOKEN_ENDPOINT : String := "/oauth2/v2.0/token"

/-- The defaults dictionary of __init__ updated with the passed keyword
arguments (lines 47-61). -/
def mergeConfig (ov : Overrides) : Config where
  client_id := ov.client_id.getD ""
  client_secret := ov.client_secret.getD ""
  redirect_uri := ov.redirect_uri.getD ""
  scopes := ov.scopes.getD []
  cache_state := ov.cache_state.getD false
  resource := ov.resource.getD config_RESOURCE
  api_version := ov.api_version.getD config_API_VERSION
  authority_url := ov.authority_url.getD config_AUTHORITY_URL
  auth_endpoint := ov.auth_endpoint.getD (config_AUTHORITY_URL ++ config_AUTH_ENDPOINT)
  token_endpoint := ov.token_endpoint.getD (config_AUTHORITY_URL ++ config_TOKEN_ENDPOINT)
  refresh_enable := ov.refresh_enable.getD true

/-- Scope normalization at the end of __init__ (lines 74-80): append
offline_access when refresh is enabled and it is missing; remove the first
occurrence (Python list.remove) when refresh is disabled and it is present. -/
def normalizeScopes (refresh : Bool) (scopes : List String) : List String :=
  if refresh then
    if "offline_access" ∈ scopes then scopes else scopes ++ ["offline_access"]
  else
    if "offline_access" ∈ scopes then scopes.erase "offline_access" else scopes

/-- GraphSession.__init__ restricted to the configuration it produces: merge
the overrides onto the defaults, then normalize the scopes list in place. -/
def graphSession_init (ov : Overrides) : Config :=
  let c := mergeConfig ov
  { c with scopes := normalizeScopes c.refresh_enable c.scopes }

/-- The self.state dictionary (session metadata), with the six keys set by
state_manager with the init action (lines 200-202). -/
structure SessionState where
  access_token : Option String
  refresh_token : Option String
  token_expires_at : ℚ
  authorization_url : String
  token_scope : String
  loggedin : Bool
deriving DecidableEq

/-- The initialized_state dictionary of state_manager (lines 200-202). -/
def initialized_state : SessionState :=
  { access_token := none
    refresh_token := none
    token_expires_at := 0
    authorization_url := ""
    token_scope := ""
    loggedin := false }

/-- JSON values appearing in the persisted state.json record. -/
inductive JVal where
  | jnull
  | jstr (s : String)
  | jnum (q : ℚ)
  | jbool (b : Bool)
deriving DecidableEq

/-- Serialize an optional string the way json.dumps does: None becomes null. -/
def jOptStr : Option String → JVal
  | none => JVal.jnull
  | some s => JVal.jstr s

/-- The JSON object written to state.json by state_manager with the save
action (lines 213-216): one key per key of initialized_state, in dictionary
insertion order, each mapped to the current value in self.state. -/
def persistRecord (st : SessionState) : List (String × JVal) :=
  [("access_token", jOptStr st.access_token),
   ("refresh_token", jOptStr st.refresh_token),
   ("token_expires_at", JVal.jnum st.token_expires_at),
   ("authorization_url", JVal.jstr st.authorization_url),
   ("token_scope", JVal.jstr st.token_scope),
   ("loggedin", JVal.jbool st.loggedin)]

/-- token_seconds (lines 253-258): 0 when the access token is falsy or the
clock has reached the expiry instant, otherwise int() of the remaining time. -/
def token_seconds (st : SessionState) (now : ℚ) : ℤ :=
  if pyTruthy st.access_token = false ∨ st.token_expires_at ≤ now then 0
  else pyInt (st.token_expires_at - now)

/-- Mutable session attributes together with the environment the methods
touch: the state dictionary, the authstate nonce, the contents of state.json
(none when the file does not exist, modelled as the typed record that the
save action writes), and a counter of POSTs made to the token endpoint. -/
structure World where
  state : SessionState
  authstate : String
  fs : Option SessionState
  posts : Nat
deriving DecidableEq

/-- Python exceptions the embedded methods can raise, plus fuel exhaustion of
the embedding (the source can recurse logout -> init -> refresh -> save
without bound). -/
inductive PyErr where
  | keyError (key : String)
  | stateMismatch (sent received : String)
  | outOfFuel
deriving DecidableEq

/-- The mutually recursive method calls of GraphSession, as one operation tag:
state_manager init / save, token_validation, token_refresh, token_save on a
given response, and logout. -/
inductive SMOp where
  | smInit
  | smSave
  | validate (nseconds : ℤ)
  | refresh
  | tsave (resp : HTTPResponse)
  | doLogout
deriving DecidableEq

/-- One fuel-indexed interpreter for the mutually recursive methods of
GraphSession. The error carries the world at the moment of the raise, since
Python mutates the object in place before an exception propagates. The Bool
of a successful result is the return value of token_save and is meaningless
for the other operations. The net argument is the response the token endpoint
gives to a refresh POST (token_refresh, lines 218-226). -/
def run (cfg : Config) (now : ℚ) (net : HTTPResponse) :
    Nat → SMOp → World → Except (PyErr × World) (World × Bool)
  | 0, _, w => Except.error (PyErr.outOfFuel, w)
  | Nat.succ f, SMOp.doLogout, w =>
      -- logout (lines 141-149): state_manager with the init action
      run cfg now net f SMOp.smInit w
  | Nat.succ f, SMOp.smInit, w =>
      -- state_manager init (lines 205-212): reset to defaults, then, when
      -- caching is on and state.json exists, load it and validate the token;
      -- when caching is off and state.json exists, delete the file.
      let w1 : World := { w with state := initialized_state }
      if cfg.cache_state then
        match w1.fs with
        | some rec => run cfg now net f (SMOp.validate 5) { w1 with state := rec }
        | none => Except.ok (w1, false)
      else
        match w1.fs with
        | some _ => Except.ok ({ w1 with fs := none }, false)
        | none => Except.ok (w1, false)
  | Nat.succ _, SMOp.smSave, w =>
      -- state_manager save (lines 213-216): write the persisted record
      if cfg.cache_state then Except.ok ({ w with fs := some w.state }, false)
      else Except.ok (w, false)
  | Nat.succ f, SMOp.validate n, w =>
      -- token_validation (lines 260-267)
      if token_seconds w.state now < n ∧ cfg.refresh_enable then
        run cfg now net f SMOp.refresh w
      else Except.ok (w, false)
  | Nat.succ f, SMOp.refresh, w =>
      -- token_refresh (lines 218-226): POST to the token endpoint, then save
      run cfg now net f (SMOp.tsave net) { w with posts := w.posts + 1 }
  | Nat.succ f, SMOp.tsave resp, w =>
      -- token_save (lines 228-251)
      match resp.body.access_token with
      | none =>
          match run cfg now net f SMOp.doLogout w with
          | Except.ok (w2, _) => Except.ok (w2, false)
          | Except.error e => Except.error e
      | some tok =>
          match resp.body.scope with
          | none => Except.error (PyErr.keyError "scope", w)
          | some sc =>
              -- verify_scopes stores the granted scope string (line 274);
              -- its set comparison only prints a warning. Then the access
              -- token and the loggedin flag are stored (lines 245-246).
              let w2 : World :=
                { w with state :=
                    { w.state with
                        token_scope := sc
                        access_token := some tok
                        loggedin := true } }
              match resp.body.expires_in with
              | none => Except.error (PyErr.keyError "expires_in", w2)
              | some ei =>
                  let w3 : World :=
                    { w2 with state :=
                        { w2.state with
                            token_expires_at := now + (pyInt ei : ℚ)
                            refresh_token := resp.body.refresh_token } }
                  Except.ok (w3, true)

/-- token_save as called with a given response (lines 228-251). -/
def token_save (cfg : Config) (now : ℚ) (net : HTTPResponse) (fuel : Nat)
    (w : World) (resp : HTTPResponse) : Except (PyErr × World) (World × Bool) :=
  run cfg now net fuel (SMOp.tsave resp) w

/-- token_refresh (lines 218-226). -/
def token_refresh (cfg : Config) (now : ℚ) (net : HTTPResponse) (fuel : Nat)
    (w : World) : Except (PyErr × World) (World × Bool) :=
  run cfg now net fuel SMOp.refresh w

/-- logout with no redirect target (lines 141-149). -/
def logout (cfg : Config) (now : ℚ) (net : HTTPResponse) (fuel : Nat)
    (w : World) : Except (PyErr × World) World :=
  (run cfg now net fuel SMOp.doLogout w).map (fun p => p.1)

/-- silent_sso (lines 176-190): true with no work when the token is valid,
otherwise refresh and report true when a refresh token is truthy, otherwise
false. -/
def silent_sso (cfg : Config) (now : ℚ) (net : HTTPResponse) (fuel : Nat)
    (w : World) : Except (PyErr × World) (World × Bool) :=
  if token_seconds w.state now > 0 then Except.ok (w, true)
  else if pyTruthy w.state.refresh_token then
    (token_refresh cfg now net fuel w).map (fun p => (p.1, true))
  else Except.ok (w, false)

/-- redirect_uri_handler (lines 151-174): check the received state query
parameter against the stored nonce, raise on mismatch, otherwise clear the
nonce, POST the code to the token endpoint (the codeResp argument is the
response), save the token, and persist when the response is ok. -/
def redirect_uri_handler (cfg : Config) (now : ℚ) (net : HTTPResponse)
    (fuel : Nat) (query_state : String) (codeResp : HTTPResponse)
    (w : World) : Except (PyErr × World) World :=
  if w.authstate ≠ query_state then
    Except.error (PyErr.stateMismatch w.authstate query_state, w)
  else
    let w1 : World := { w with authstate := "", posts := w.posts + 1 }
    match run cfg now net fuel (SMOp.tsave codeResp) w1 with
    | Except.error e => Except.error e
    | Except.ok (w2, _) =>
        if codeResp.ok then
          match run cfg now net fuel SMOp.smSave w2 with
          | Except.ok (w3, _) => Except.ok w3
          | Except.error e => Except.error e
        else Except.ok w2

/-- Characters allowed in a URL scheme by urllib.parse. -/
def isSchemeChar (c : Char) : Bool :=
  c.isAlphanum || c = '+' || c = '-' || c = '.'

/-- Split a character list at its first colon: the part before it and the
part after it, or none when there is no colon. -/
def splitColon : List Char → Option (List Char × List Char)
  | [] => none
  | c :: rest =>
      if c = ':' then some ([], rest)
      else (splitColon rest).map (fun p => (c :: p.1, p.2))

/-- The scheme urllib.parse.urlparse extracts: the lower-cased part before the
first colon when it is nonempty, starts with a letter and consists of scheme
characters; the empty string otherwise. -/
def schemeOfList (l : List Char) : String :=
  match splitColon l with
  | none => ""
  | some (pre, _) =>
      if pre ≠ [] ∧ (pre.headD ' ').isAlpha ∧ pre.all isSchemeChar then
        String.mk (pre.map Char.toLower)
      else ""

/-- urlparse(url).scheme on a string. -/
def schemeOf (url : String) : String :=
  schemeOfList url.toList

/-- Python str.lstrip with the slash character: drop every leading slash. -/
def lstripSlash (s : String) : String :=
  String.mk (s.toList.dropWhile (fun c => c = '/'))

/-- The given string with k extra leading slashes. -/
def withSlashes (k : Nat) (u : String) : String :=
  String.mk (List.replicate k '/' ++ u.toList)

/-- api_endpoint (lines 88-95): return absolute http(s) URLs unchanged,
otherwise join the slash-stripped argument onto resource + api_version + "/".
The urljoin collaborator from urllib.parse is passed in as a parameter. -/
def api_endpoint (cfg : Config) (urljoin : String → String → String)
    (url : String) : String :=
  if schemeOf url = "http" ∨ schemeOf url = "https" then url
  else urljoin (cfg.resource ++ cfg.api_version ++ "/") (lstripSlash url)

/-- A configuration with caching and refresh enabled, used to evaluate the
logout and failed-token-save paths on concrete inputs. -/
def cfgCache : Config :=
  { client_id := "client"
    client_secret := "secret"
    redirect_uri := "http://localhost:5000/login/authorized"
    scopes := ["Mail.Read", "offline_access"]
    cache_state := true
    resource := config_RESOURCE
    api_version := config_API_VERSION
    authority_url := config_AUTHORITY_URL
    auth_endpoint := config_AUTHORITY_URL ++ config_AUTH_ENDPOINT
    token_endpoint := config_AUTHORITY_URL ++ config_TOKEN_ENDPOINT
    refresh_enable := true }

/-- A logged-in session record with a still-valid token, as a prior persisted
copy in state.json would hold it. -/
def recLoggedIn : SessionState :=
  { access_token := some "AT"
    refresh_token := some "RT"
    token_expires_at := 1000
    authorization_url := ""
    token_scope := "Mail.Read"
    loggedin := true }

/-- A session whose state matches the persisted record in state.json. -/
def wCached : World :=
  { state := recLoggedIn
    authstate := ""
    fs := some recLoggedIn
    posts := 0 }

/-- A response oracle that is never consulted in the concrete evaluations. -/
def netIdle : HTTPResponse :=
  { ok := false, body := {} }

/-- The parsed token-endpoint response for an invalid_grant error body. -/
def respInvalidGrant : HTTPResponse :=
  { ok := false, body := { error := some "invalid_grant" } }

/-- A parsed token-endpoint response carrying a fresh access token but no
refresh_token field. -/
def respNoRefresh : HTTPResponse :=
  { ok := true
    body := { access_token := some "AT2"
              scope := some "Mail.Read"
              expires_in := some 3600 } }

/-- Overrides passing offline_access twice while disabling refresh. -/
def ovDup : Overrides :=
  { scopes := some ["offline_access", "offline_access"]
    refresh_enable := some false }

/-- A session awaiting its callback: a nonce has been issued by login. -/
def wAwait : World :=
  { state := initialized_state
    authstate := "nonce123"
    fs := none
    posts := 0 }

/-- The session expected after saving respNoRefresh over wCached at clock 0:
the stored refresh token has been overwritten with the absent response
field. -/
def wAfterNoRefresh : World :=
  { state :=
      { access_token := some "AT2"
        refresh_token := none
        token_expires_at := 0 + (pyInt 3600 : ℚ)
        authorization_url := ""
        token_scope := "Mail.Read"
        loggedin := true }
    authstate := ""
    fs := some recLoggedIn
    posts := 0 }

/-- Overrides asking only for a Graph permission, with refresh disabled. -/
def ovPlain : Overrides :=
  { scopes := some ["Mail.Read"]
    refresh_enable := some false }

/-- Python int() of a nonnegative rational is nonnegative. -/
theorem pyInt_nonneg (q : ℚ) (h : 0 ≤ q) : 0 ≤ pyInt q := by
  unfold pyInt
  rw [Int.tdiv_eq_ediv (Rat.num_nonneg.mpr h) (Int.natCast_nonneg q.den)]
  exact Int.ediv_nonneg (Rat.num_nonneg.mpr h) (Int.natCast_nonneg q.den)

/-- Python int() of the rational 3600 is the integer 3600. -/
theorem pyInt_3600 : pyInt 3600 = 3600 := by
  simp [pyInt]

/-- A string starting with a slash has no URL scheme. -/
theorem schemeOfList_slash (l : List Char) : schemeOfList ('/' :: l) = "" := by
  unfold schemeOfList
  simp only [splitColon]
  rw [if_neg (by decide)]
  cases hsc : splitColon l with
  | none => rfl
  | some p =>
      cases p with
      | mk pre rest =>
          simp only [Option.map]
          rw [if_neg]
          intro hcond
          exact absurd hcond.2.1 (by rw [List.headD_cons]; decide)

/-- Dropping leading slashes absorbs any number of prepended slashes. -/
theorem dropWhile_slash_replicate (k : Nat) (l : List Char) :
    (List.replicate k '/' ++ l).dropWhile (fun c => c = '/')
      = l.dropWhile (fun c => c = '/') := by
  induction k with
  | zero => rfl
  | succ k ih =>
      rw [List.replicate_succ, List.cons_append, List.dropWhile_cons_of_pos (by decide)]
      exact ih

/-- Adding at least one leading slash makes the scheme empty. -/
theorem schemeOf_withSlashes_succ (k : Nat) (u : String) :
    schemeOf (withSlashes (k + 1) u) = "" := by
  unfold schemeOf withSlashes
  rw [show (String.mk (List.replicate (k + 1) '/' ++ u.toList)).toList
        = '/' :: (List.replicate k '/' ++ u.toList) by
      simp [String.toList, List.replicate_succ]]
  exact schemeOfList_slash _

/-- Leading-slash stripping ignores prepended slashes. -/
theorem lstripSlash_withSlashes (k : Nat) (u : String) :
    lstripSlash (withSlashes k u) = lstripSlash u := by
  unfold lstripSlash withSlashes
  rw [show (String.mk (List.replicate k '/' ++ u.toList)).toList
        = List.replicate k '/' ++ u.toList from rfl]
  rw [dropWhile_slash_replicate]

/-- Zero prepended slashes leave the string unchanged. -/
theorem withSlashes_zero (u : String) : withSlashes 0 u = u := rfl

/-- With refresh enabled, normalization always yields offline_access. -/
theorem normalizeScopes_refresh_mem (s : List String) :
    "offline_access" ∈ normalizeScopes true s := by
  by_cases h : "offline_access" ∈ s <;> simp [normalizeScopes, h]

/-- With refresh disabled, normalization removes offline_access as long as it
was requested at most once (Python list.remove drops one occurrence). -/
theorem normalizeScopes_norefresh_not_mem (s : List String)
    (h : s.count "offline_access" ≤ 1) :
    "offline_access" ∉ normalizeScopes false s := by
  by_cases hm : "offline_access" ∈ s
  · simp only [normalizeScopes, Bool.false_eq_true, if_false, if_pos hm]
    intro hc
    have h1 : 0 < s.count "offline_access" := List.count_pos_iff.mpr hm
    have h2 : (s.erase "offline_access").count "offline_access"
        = s.count "offline_access" - 1 := List.count_erase_self _ _
    have h3 : 0 < (s.erase "offline_access").count "offline_access" :=
      List.count_pos_iff.mpr hc
    omega
  · simp [normalizeScopes, hm]

/-- C1. The claim says logout resets the session to the logged-out default
and, with caching enabled, removes the durable copy. The code instead routes
logout through state_manager init, which with caching enabled reloads the
persisted record from state.json and never deletes it: on a cached logged-in
session, logout returns the session fully unchanged, still logged in, with
the durable copy intact. This contradicts the logout docstring (clear current
connection state) and the spec, so it is a code bug, evaluated here on the
concrete failing input. -/
theorem logout_reloads_cached_state :
    logout cfgCache 0 netIdle 9 wCached = Except.ok wCached ∧
    wCached.state.loggedin = true ∧
    wCached.state.access_token = some "AT" ∧
    wCached.fs = some recLoggedIn ∧
    initialized_state.loggedin = false := by
  refine ⟨?_, rfl, rfl, rfl, rfl⟩
  simp [logout, run, token_seconds, pyTruthy, pyInt, cfgCache, wCached,
    recLoggedIn, initialized_state, netIdle]
  norm_num [netIdle, Except.map]

/-- C2 counterexample. The persisted record written by the save action also
contains the authorization_url key, which is not among the five fields the
claim allows. -/
theorem persist_includes_authorization_url :
    "authorization_url" ∈ (persistRecord initialized_state).map (fun p => p.1) ∧
    "authorization_url" ∉ ["access_token", "refresh_token", "token_expires_at",
      "token_scope", "loggedin"] := by
  decide

/-- C2 amended. For every session state, the persisted record is a JSON
object whose field list is exactly access_token, refresh_token,
token_expires_at, authorization_url, token_scope, loggedin — the five claimed
fields plus authorization_url — and the pending authorization nonce
(authstate) is never among the persisted fields. -/
theorem persist_field_set (st : SessionState) :
    (persistRecord st).map (fun p => p.1)
      = ["access_token", "refresh_token", "token_expires_at",
         "authorization_url", "token_scope", "loggedin"] ∧
    "authstate" ∉ (persistRecord st).map (fun p => p.1) := by
  refine ⟨rfl, ?_⟩
  simp [persistRecord]

/-- C3 counterexample. A session holding refresh token RT saves a response
that has an access token but omits the refresh_token field; the stored
refresh token is overwritten with none rather than kept. -/
theorem token_save_drops_stored_refresh_token :
    wCached.state.refresh_token = some "RT" ∧
    respNoRefresh.body.refresh_token = none ∧
    token_save cfgCache 0 netIdle 1 wCached respNoRefresh
      = Except.ok (wAfterNoRefresh, true) ∧
    wAfterNoRefresh.state.refresh_token = none := by
  exact ⟨rfl, rfl, rfl, rfl⟩

/-- C3 amended. Saving a token response that contains access_token, scope and
expires_in stores exactly the refresh_token field of that response into the
session: the previously stored refresh token is overwritten, so an omitted
refresh_token field clears it to none (the omission IS treated as a clear,
as noted as an open question in the design notes). -/
theorem token_save_refresh_token_from_response (cfg : Config) (now : ℚ)
    (net : HTTPResponse) (fuel : Nat) (w : World) (ok : Bool) (a s : String)
    (ei : ℚ) (rt er : Option String) :
    token_save cfg now net (fuel + 1) w
        { ok := ok
          body := { access_token := some a, scope := some s,
                    expires_in := some ei, refresh_token := rt, error := er } }
      = Except.ok
          ({ w with state :=
              { w.state with
                  access_token := some a
                  refresh_token := rt
                  token_expires_at := now + (pyInt ei : ℚ)
                  token_scope := s
                  loggedin := true } }, true) := by
  rfl

/-- C4 counterexample. With refresh disabled and offline_access passed twice
in the requested scopes, the normalized scopes list still contains
offline_access, because Python list.remove deletes only the first
occurrence. -/
theorem construct_duplicate_offline_access :
    (graphSession_init ovDup).refresh_enable = false ∧
    "offline_access" ∈ (graphSession_init ovDup).scopes := by
  exact ⟨rfl, by decide⟩

/-- C4 amended. Provided the caller lists offline_access at most once in the
requested scopes, the constructed configuration contains offline_access in
its normalized scopes exactly when the refresh-enabled flag is true. -/
theorem construct_offline_access_invariant (ov : Overrides)
    (h : (ov.scopes.getD []).count "offline_access" ≤ 1) :
    ((graphSession_init ov).refresh_enable = true →
        "offline_access" ∈ (graphSession_init ov).scopes) ∧
    ((graphSession_init ov).refresh_enable = false →
        "offline_access" ∉ (graphSession_init ov).scopes) := by
  have hs : (graphSession_init ov).scopes
      = normalizeScopes (ov.refresh_enable.getD true) (ov.scopes.getD []) := rfl
  have hr : (graphSession_init ov).refresh_enable
      = ov.refresh_enable.getD true := rfl
  rw [hs, hr]
  constructor
  · intro hrt
    rw [hrt]
    exact normalizeScopes_refresh_mem _
  · intro hrf
    rw [hrf]
    exact normalizeScopes_norefresh_not_mem _ h

/-- Witness for C4: concrete overrides with refresh disabled and a single
Graph scope produce a configuration without offline_access. -/
theorem construct_offline_access_invariant_witness :
    "offline_access" ∉ (graphSession_init ovPlain).scopes :=
  (construct_offline_access_invariant ovPlain (by decide)).2 rfl

/-- C5. When the state query parameter of the callback differs from the
stored nonce, the handler raises the state-mismatch error and the session is
untouched: the error carries the world exactly as it was, so no token is
written, no POST to the token endpoint is made, and nothing is persisted. -/
theorem redirect_handler_state_mismatch (cfg : Config) (now : ℚ)
    (net : HTTPResponse) (fuel : Nat) (query_state : String)
    (codeResp : HTTPResponse) (w : World) (h : w.authstate ≠ query_state) :
    redirect_uri_handler cfg now net fuel query_state codeResp w
      = Except.error (PyErr.stateMismatch w.authstate query_state, w) := by
  unfold redirect_uri_handler
  rw [if_pos h]

/-- Witness for C5 at a concrete mismatching callback. -/
theorem redirect_handler_state_mismatch_witness :
    redirect_uri_handler cfgCache 0 netIdle 3 "evil" respNoRefresh wAwait
      = Except.error (PyErr.stateMismatch "nonce123" "evil", wAwait) :=
  redirect_handler_state_mismatch cfgCache 0 netIdle 3 "evil" respNoRefresh
    wAwait (by decide)

/-- C6. The claim says a token response without access_token resets the
session to the logged-out default, returns a caller-visible failure and
writes no file. The code does return False and writes nothing, but the reset
goes through logout, which with caching enabled reloads the persisted
state.json record: on a cached logged-in session the save returns False yet
leaves the session logged in with the old credentials — it does not reset to
the default. Evaluated here on the concrete failing input. -/
theorem token_save_failure_reloads_cached_state :
    token_save cfgCache 0 netIdle 9 wCached respInvalidGrant
      = Except.ok (wCached, false) ∧
    respInvalidGrant.body.access_token = none ∧
    wCached.state.loggedin = true ∧
    wCached.fs = some recLoggedIn ∧
    initialized_state.loggedin = false := by
  refine ⟨?_, rfl, rfl, rfl, rfl⟩
  simp [token_save, run, respInvalidGrant, token_seconds, pyTruthy, pyInt,
    cfgCache, wCached, recLoggedIn, initialized_state, netIdle]
  norm_num [netIdle, Except.map]

/-- C7. silent_sso returns true and leaves the session untouched (so no
network call) when the access token has more than 0 seconds remaining;
otherwise, when the stored refresh token is truthy, it performs the
refresh-token exchange and reports true whatever the outcome of the exchange
is; otherwise it returns false. -/
theorem silent_sso_spec (cfg : Config) (now : ℚ) (net : HTTPResponse)
    (fuel : Nat) (w : World) :
    (token_seconds w.state now > 0 →
        silent_sso cfg now net fuel w = Except.ok (w, true)) ∧
    (¬ token_seconds w.state now > 0 →
        pyTruthy w.state.refresh_token = true →
        silent_sso cfg now net fuel w
          = (token_refresh cfg now net fuel w).map (fun p => (p.1, true))) ∧
    (¬ token_seconds w.state now > 0 →
        pyTruthy w.state.refresh_token = false →
        silent_sso cfg now net fuel w = Except.ok (w, false)) := by
  refine ⟨?_, ?_, ?_⟩
  · intro h
    simp [silent_sso, h]
  · intro h1 h2
    simp [silent_sso, h1, h2]
  · intro h1 h2
    simp [silent_sso, h1, h2]

/-- Witness for C7: on a session with a valid cached token, silent_sso
reports true with the session unchanged. -/
theorem silent_sso_spec_witness :
    silent_sso cfgCache 0 netIdle 3 wCached = Except.ok (wCached, true) :=
  (silent_sso_spec cfgCache 0 netIdle 3 wCached).1
    (by simp [token_seconds, wCached, recLoggedIn, pyTruthy, pyInt]; norm_num)

/-- C8. api_endpoint is idempotent on absolute http(s) URLs, and on relative
inputs the result does not depend on how many leading slashes the caller
prepends, for every urljoin collaborator. -/
theorem api_endpoint_spec :
    (∀ (cfg : Config) (uj : String → String → String) (x : String),
        (schemeOf x = "http" ∨ schemeOf x = "https") →
        api_endpoint cfg uj (api_endpoint cfg uj x) = api_endpoint cfg uj x) ∧
    (∀ (cfg : Config) (uj : String → String → String) (u : String)
        (k1 k2 : Nat), ¬ (schemeOf u = "http" ∨ schemeOf u = "https") →
        api_endpoint cfg uj (withSlashes k1 u)
          = api_endpoint cfg uj (withSlashes k2 u)) := by
  constructor
  · intro cfg uj x h
    have hx : api_endpoint cfg uj x = x := by
      unfold api_endpoint
      rw [if_pos h]
    rw [hx]
    exact hx
  · intro cfg uj u k1 k2 h
    have key : ∀ k, api_endpoint cfg uj (withSlashes k u)
        = uj (cfg.resource ++ cfg.api_version ++ "/") (lstripSlash u) := by
      intro k
      cases k with
      | zero =>
          rw [withSlashes_zero]
          unfold api_endpoint
          rw [if_neg h]
      | succ k =>
          unfold api_endpoint
          rw [if_neg (by rw [schemeOf_withSlashes_succ]; decide)]
          rw [lstripSlash_withSlashes]
    rw [key k1, key k2]

/-- Witness for C8 at a concrete absolute URL and a concrete relative path
with one and two leading slashes, with string concatenation as the urljoin
collaborator. -/
theorem api_endpoint_spec_witness :
    api_endpoint cfgCache (fun a b => a ++ b)
        (api_endpoint cfgCache (fun a b => a ++ b) "http://x")
      = api_endpoint cfgCache (fun a b => a ++ b) "http://x" ∧
    api_endpoint cfgCache (fun a b => a ++ b) (withSlashes 2 "me")
      = api_endpoint cfgCache (fun a b => a ++ b) (withSlashes 1 "me") :=
  ⟨api_endpoint_spec.1 cfgCache (fun a b => a ++ b) "http://x" (by decide),
   api_endpoint_spec.2 cfgCache (fun a b => a ++ b) "me" 2 1 (by decide)⟩

/-- C9. token_seconds is never negative; it is 0 whenever the access token is
falsy or the expiry instant has been reached; and a token save carrying
expires_in 3600 and a nonempty access token produces a state on which
token_seconds, read at the same clock instant, is exactly 3600. -/
theorem token_seconds_spec :
    (∀ (st : SessionState) (now : ℚ), 0 ≤ token_seconds st now) ∧
    (∀ (st : SessionState) (now : ℚ),
        pyTruthy st.access_token = false ∨ st.token_expires_at ≤ now →
        token_seconds st now = 0) ∧
    (∀ (cfg : Config) (net : HTTPResponse) (fuel : Nat) (w : World) (t : ℚ)
        (ok : Bool) (a s : String) (rt er : Option String), a ≠ "" →
        ∃ w3, token_save cfg t net (fuel + 1) w
            { ok := ok
              body := { access_token := some a, scope := some s,
                        expires_in := some 3600, refresh_token := rt,
                        error := er } }
          = Except.ok (w3, true) ∧ token_seconds w3.state t = 3600) := by
  refine ⟨?_, ?_, ?_⟩
  · intro st now
    unfold token_seconds
    by_cases h : pyTruthy st.access_token = false ∨ st.token_expires_at ≤ now
    · rw [if_pos h]
    · rw [if_neg h]
      push_neg at h
      exact pyInt_nonneg _ (by linarith [h.2])
  · intro st now h
    unfold token_seconds
    rw [if_pos h]
  · intro cfg net fuel w t ok a s rt er ha
    refine ⟨_, rfl, ?_⟩
    unfold token_seconds
    rw [if_neg]
    · rw [show t + (pyInt 3600 : ℚ) - t = (pyInt 3600 : ℚ) from
          add_sub_cancel_left t _]
      rw [pyInt_3600]
      rfl
    · rw [pyInt_3600]
      push_neg
      constructor
      · simp [pyTruthy, ha]
      · norm_num


/-- Witness for C9: the zero branch on the default state, and the 3600
result after a concrete save. -/
theorem token_seconds_spec_witness :
    token_seconds initialized_state 0 = 0 ∧
    (∃ w3, token_save cfgCache 0 netIdle 1 wCached
        { ok := true
          body := { access_token := some "AT2", scope := some "Mail.Read",
                    expires_in := some 3600, refresh_token := none,
                    error := none } }
      = Except.ok (w3, true) ∧ token_seconds w3.state 0 = 3600) :=
  ⟨token_seconds_spec.2.1 initialized_state 0 (Or.inl rfl),
   token_seconds_spec.2.2 cfgCache netIdle 0 wCached 0 true "AT2" "Mail.Read"
     none none (by decide)⟩

/-- C10. When the response body has an access_token but lacks the scope field
or the expires_in field, token_save does not return False: it raises a key
lookup error. A missing scope raises before any mutation, while a missing
expires_in raises after the granted scope, the access token and the
logged-in flag were already written, leaving the session partially
updated. -/
theorem token_save_missing_fields_keyerror (cfg : Config) (now : ℚ)
    (net : HTTPResponse) (fuel : Nat) (w : World) (ok : Bool) (a : String)
    (rt er : Option String) :
    (∀ ei, token_save cfg now net (fuel + 1) w
        { ok := ok
          body := { access_token := some a, scope := none, expires_in := ei,
                    refresh_token := rt, error := er } }
      = Except.error (PyErr.keyError "scope", w)) ∧
    (∀ s, token_save cfg now net (fuel + 1) w
        { ok := ok
          body := { access_token := some a, scope := some s,
                    expires_in := none, refresh_token := rt, error := er } }
      = Except.error (PyErr.keyError "expires_in",
          { w with state :=
              { w.state with
                  access_token := some a
                  token_scope := s
                  loggedin := true } })) := by
  exact ⟨fun ei => rfl, fun s => rfl⟩

end GraphRest
